import Mathlib

/-!
# Jira release-ticket report (`src/Jira/fetch-release-tickets.js`)

A shallow embedding of the script: the values it receives from the remote
search (parsed JSON), the projection of every raw issue into a ticket
(`fetchFullTickets`) and the printing loop of `main`, with the JavaScript
failure modes (a `TypeError` on reading a property of `undefined`/`null`, on
calling a non-function, on converting an object to a string) made explicit as
`Except`.  Standard output is the list of `console.log` calls, standard error
the list of `console.error` calls.
-/

namespace FetchReleaseTickets

/-! ## JavaScript values -/

/-- A JavaScript value as the script meets it: parsed JSON, plus `undefined`
(what reading a missing property yields).  A Number is carried by the text that
`Number::toString` gives for it; the script never computes with a record's
numbers, it only tests them for truthiness and prints them. -/
inductive JSVal where
  | undefined
  | null
  | bool (b : Bool)
  | num (text : String)
  | str (s : String)
  | arr (items : List JSVal)
  | obj (props : List (String × JSVal))

/-- What a `throw` (or a rejected promise) carries: a `TypeError` raised by the
runtime, with its message, or the value the remote client rejected with. -/
inductive Thrown where
  | typeError (message : String)
  | value (v : JSVal)

/-- The test `v == null`: the value is `undefined` or `null`. -/
def nullish : JSVal → Bool
  | .undefined => true
  | .null => true
  | _ => false

/-- ToBoolean: `undefined`, `null`, `false`, `0` and the empty string are
falsy, every other value (arrays and objects included) is truthy; parsed JSON
holds no `NaN`, and both zeros print as `0`. -/
def truthy : JSVal → Bool
  | .undefined => false
  | .null => false
  | .bool b => b
  | .num t => t != "0"
  | .str s => s != ""
  | .arr _ => true
  | .obj _ => true

/-- The operator `a || b`. -/
def jsOr (a b : JSVal) : JSVal :=
  if truthy a then a else b

/-- Own-property lookup in an object's property list; `undefined` when the
name is missing. -/
def lookup (k : String) : List (String × JSVal) → JSVal
  | [] => .undefined
  | (k1, v) :: rest => if k1 = k then v else lookup k rest

/-- Whether the property list has an own property named `k`. -/
def hasOwn (k : String) : List (String × JSVal) → Bool
  | [] => false
  | (k1, _) :: rest => if k1 = k then true else hasOwn k rest

/-- The value of `v.k` for a `v` that is not `undefined`/`null`, for the
property names the script reads (`issues`, `key`, `fields`, `issuetype`,
`name`, `displayName`, `customfield_…`, `message`, …): none of them is defined
by a prototype, so the read is an own-property lookup on an object and
`undefined` on every other value. -/
def getProp (v : JSVal) (k : String) : JSVal :=
  match v with
  | .obj ps => lookup k ps
  | _ => .undefined

/-- The member access `v.k`: a `TypeError` when `v` is `undefined` or `null`. -/
def readProp (v : JSVal) (k : String) : Except Thrown JSVal :=
  match v with
  | .undefined =>
    .error (.typeError ("Cannot read properties of undefined (reading '" ++ k ++ "')"))
  | .null =>
    .error (.typeError ("Cannot read properties of null (reading '" ++ k ++ "')"))
  | w => .ok (getProp w k)

/-- The optional chain `v?.k`: `undefined` when `v` is `undefined` or `null`. -/
def optChain (v : JSVal) (k : String) : JSVal :=
  if nullish v then .undefined else getProp v k

mutual
/-- ToString, as a template literal applies it to `${v}`.  An array is joined
with `,`; a plain object prints `[object Object]`, unless an own `toString`
property (never callable in parsed JSON) shadows the inherited method, in which
case the conversion throws. -/
def toStr : JSVal → Except Thrown String
  | .undefined => .ok "undefined"
  | .null => .ok "null"
  | .bool b => .ok (if b then "true" else "false")
  | .num t => .ok t
  | .str s => .ok s
  | .arr xs =>
    match itemTexts xs with
    | .error e => .error e
    | .ok texts => .ok (",".intercalate texts)
  | .obj ps =>
    if hasOwn "toString" ps then
      .error (.typeError "Cannot convert object to primitive value")
    else .ok "[object Object]"
/-- The texts that `Array.prototype.join` puts between the separators, item by
item from the left: `undefined` and `null` items contribute the empty string,
every other item its ToString. -/
def itemTexts : List JSVal → Except Thrown (List String)
  | [] => .ok []
  | .undefined :: rest =>
    match itemTexts rest with
    | .error e => .error e
    | .ok texts => .ok ("" :: texts)
  | .null :: rest =>
    match itemTexts rest with
    | .error e => .error e
    | .ok texts => .ok ("" :: texts)
  | x :: rest =>
    match toStr x with
    | .error e => .error e
    | .ok a =>
      match itemTexts rest with
      | .error e => .error e
      | .ok texts => .ok (a :: texts)
end

/-- The method `Array.prototype.join(sep)` on the items of an array. -/
def joinItems (sep : String) (xs : List JSVal) : Except Thrown String :=
  match itemTexts xs with
  | .error e => .error e
  | .ok texts => .ok (sep.intercalate texts)

/-- The method call `recv.join(sep)`: only an array has a `join` method. -/
def callJoin (recv : JSVal) (sep : String) : Except Thrown String :=
  match recv with
  | .arr xs => joinItems sep xs
  | .undefined => .error (.typeError "Cannot read properties of undefined (reading 'join')")
  | .null => .error (.typeError "Cannot read properties of null (reading 'join')")
  | _ => .error (.typeError "ticket.labels.join is not a function")

/-! ## Configuration constants -/

def JIRA_DOMAIN : String := "your-jira-domain"
def JIRA_PROJECT_KEY : String := "VSFT"
def FIX_VERSION : String := "1.38.1"
def BASE_TICKET_URL : String := "https://" ++ JIRA_DOMAIN ++ "/browse/"

/-! ## The remote search -/

/-- The argument object of `jira.search.search`. -/
structure SearchRequest where
  jql : String
  maxResults : Nat
  expand : List String

/-- The remote client's search, which lives outside the repository: for a
request the promise either rejects with a value or resolves to the parsed
response. -/
abbrev SearchFn := SearchRequest → Except JSVal JSVal

/-! ## Ticket projection -/

/-- The object literal built for each issue by `fetchFullTickets`. -/
structure Ticket where
  key : JSVal
  url : String
  type : JSVal
  status : JSVal
  priority : JSVal
  summary : JSVal
  description : JSVal
  assignee : JSVal
  reporter : JSVal
  created : JSVal
  updated : JSVal
  labels : JSVal
  rawFields : JSVal

/-- The callback of `result.issues.map(...)`: source lines 29-46, in
evaluation order. -/
def issueToTicket (issue : JSVal) : Except Thrown Ticket := do
  let f ← readProp issue "fields"
  let key ← readProp issue "key"
  let keyText ← toStr key
  let issuetype ← readProp f "issuetype"
  let type ← readProp issuetype "name"
  let st ← readProp f "status"
  let status ← readProp st "name"
  pure {
    key := key
    url := BASE_TICKET_URL ++ keyText
    type := type
    status := status
    priority := jsOr (optChain (getProp f "priority") "name") (.str "N/A")
    summary := getProp f "summary"
    description := jsOr (getProp f "description") (.str "")
    assignee := jsOr (optChain (getProp f "assignee") "displayName") (.str "Unassigned")
    reporter := jsOr (optChain (getProp f "reporter") "displayName") (.str "Unknown")
    created := getProp f "created"
    updated := getProp f "updated"
    labels := getProp f "labels"
    rawFields := f }

/-- The method `Array.prototype.map` with the projecting callback: items are visited in
order and the first throw aborts the whole map. -/
def mapIssues : List JSVal → Except Thrown (List Ticket)
  | [] => .ok []
  | issue :: rest =>
    match issueToTicket issue with
    | .error e => .error e
    | .ok t =>
      match mapIssues rest with
      | .error e => .error e
      | .ok ts => .ok (t :: ts)

/-- The method call `v.map(callback)` on `result.issues`. -/
def callMap (v : JSVal) : Except Thrown (List Ticket) :=
  match v with
  | .arr xs => mapIssues xs
  | .undefined => .error (.typeError "Cannot read properties of undefined (reading 'map')")
  | .null => .error (.typeError "Cannot read properties of null (reading 'map')")
  | _ => .error (.typeError "result.issues.map is not a function")

/-- The request of source lines 21-27: the filter expression, the result cap
and the requested expansions. -/
def searchRequest (projectKey fixVersionName : String) : SearchRequest :=
  { jql := "project = \"" ++ projectKey ++ "\" AND fixVersion = \"" ++ fixVersionName
      ++ "\" ORDER BY created ASC"
    maxResults := 100
    expand := ["names", "schema"] }

/-- The function `fetchFullTickets(projectKey, fixVersionName)`. -/
def fetchFullTickets (search : SearchFn) (projectKey fixVersionName : String) :
    Except Thrown (List Ticket) :=
  match search (searchRequest projectKey fixVersionName) with
  | .error err => .error (.value err)
  | .ok result =>
    match readProp result "issues" with
    | .error e => .error e
    | .ok issues => callMap issues

/-! ## Printing -/

/-- A step of the `try` block of `main`: it may append `console.log` calls to
standard output and may throw; what was printed before a throw stays. -/
def Proc (α : Type) : Type := List String → Except Thrown α × List String

/-- Sequencing of two steps: the second runs only when the first did not
throw. -/
def Proc.andThen {α β : Type} (m : Proc α) (f : α → Proc β) : Proc β := fun out =>
  match m out with
  | (.ok a, out1) => f a out1
  | (.error e, out1) => (.error e, out1)

instance : Monad Proc where
  pure a := fun out => (.ok a, out)
  bind := Proc.andThen

/-- The call `console.log(msg)`: one more entry on standard output. -/
def consoleLog (msg : String) : Proc Unit := fun out => (.ok (), out ++ [msg])

/-- Evaluation of an expression that may throw and prints nothing. -/
def evalE {α : Type} (x : Except Thrown α) : Proc α := fun out => (x, out)

/-- The template of source line 57: the header of block `i + 1`. -/
def headerLine (i : Nat) (ticket : Ticket) : Except Thrown String := do
  let type ← toStr ticket.type
  let key ← toStr ticket.key
  let summary ← toStr ticket.summary
  pure (toString (i + 1) ++ ". [" ++ type ++ "] " ++ key ++ " - " ++ summary)

/-- A template made of a fixed text followed by one interpolated value. -/
def fieldLine (label : String) (v : JSVal) : Except Thrown String := do
  let text ← toStr v
  pure (label ++ text)

/-- The expression `ticket.labels.join(', ') || 'None'`. -/
def labelsText (ticket : Ticket) : Except Thrown String := do
  let joined ← callJoin ticket.labels ", "
  pure (if joined = "" then "None" else joined)

/-- The template of source line 64. -/
def labelsLine (ticket : Ticket) : Except Thrown String := do
  let text ← labelsText ticket
  pure ("   🏷  Labels: " ++ text)

/-- A template that prints the extension field `name` of `ticket.rawFields`. -/
def customLine (label : String) (ticket : Ticket) (name : String) : Except Thrown String := do
  let v ← readProp ticket.rawFields name
  let text ← toStr v
  pure (label ++ text)

/-- The body of the `forEach` callback, source lines 57-72. -/
def printTicket (ticket : Ticket) (i : Nat) : Proc Unit := do
  consoleLog (← evalE (headerLine i ticket))
  consoleLog (← evalE (fieldLine "   🧾 Status: " ticket.status))
  consoleLog (← evalE (fieldLine "   🧾 Priority: " ticket.priority))
  consoleLog (← evalE (fieldLine "   👤 Assignee: " ticket.assignee))
  consoleLog (← evalE (fieldLine "   👤 Reporter: " ticket.reporter))
  consoleLog (← evalE (fieldLine "   🕒 Created: " ticket.created))
  consoleLog (← evalE (fieldLine "   🔄 Updated: " ticket.updated))
  consoleLog (← evalE (labelsLine ticket))
  consoleLog (← evalE (customLine "   📦 [Product Item]: " ticket "customfield_11210"))
  consoleLog (← evalE (customLine "   📦 [Environment]: " ticket "customfield_11211"))
  consoleLog (← evalE (customLine "   📦 [Feature]: " ticket "customfield_11215"))
  consoleLog (← evalE (customLine "   📦 [Testing version]: " ticket "customfield_11179"))
  consoleLog ("   🔗 " ++ ticket.url)
  consoleLog ""

/-- The loop `tickets.forEach((ticket, i) => ...)`, from index `i` on. -/
def forEachTicket : List Ticket → Nat → Proc Unit
  | [], _ => pure ()
  | ticket :: rest, i => do
    printTicket ticket i
    forEachTicket rest (i + 1)

/-! ## The program -/

/-- How the promise returned by `main()` settles. -/
inductive Completion where
  | fulfilled
  | rejected (err : Thrown)

/-- What one run of the script leaves behind: the `console.log` calls, the
argument lists of the `console.error` calls, and how `main()` settled. -/
structure Run where
  stdout : List String
  stderr : List (List JSVal)
  completion : Completion

/-- The `try` block of `main`, source lines 51-73. -/
def mainTry (search : SearchFn) : Proc Unit := do
  let tickets ← evalE (fetchFullTickets search JIRA_PROJECT_KEY FIX_VERSION)
  consoleLog ("Total " ++ toString tickets.length ++ " issues in version \"" ++ FIX_VERSION
    ++ "\":\n")
  forEachTicket tickets 0

/-- The expression `err.message` of the `catch` block. -/
def errMessage : Thrown → Except Thrown JSVal
  | .typeError message => .ok (.str message)
  | .value v => readProp v "message"

/-- The function `main()`: the `try` block, and on a throw the `catch` block
with its single `console.error` call. -/
def main (search : SearchFn) : Run :=
  match mainTry search [] with
  | (.ok _, out) => { stdout := out, stderr := [], completion := .fulfilled }
  | (.error err, out) =>
    match errMessage err with
    | .ok message =>
      { stdout := out, stderr := [[.str "❌ Error:", message]], completion := .fulfilled }
    | .error e => { stdout := out, stderr := [], completion := .rejected e }

/-- The text of a list of printed lines: each line and its newline. -/
def linesText (ls : List String) : String :=
  String.join (ls.map (fun msg => msg ++ "\n"))

/-- The text on standard output: every `console.log` call writes its message
and a newline. -/
def stdoutText (r : Run) : String :=
  linesText r.stdout

/-- The exit status of the process.  The script never calls `process.exit` and
never assigns `process.exitCode`, so a fulfilled `main()` ends with status 0;
a rejected `main()` is an unhandled rejection, which ends Node with status 1. -/
def exitStatus (r : Run) : Nat :=
  match r.completion with
  | .fulfilled => 0
  | .rejected _ => 1

/-! ## Sample data -/

/-- A search that resolves to a response holding the given issues. -/
def searchReturning (issues : List JSVal) : SearchFn :=
  fun _ => .ok (.obj [("issues", .arr issues)])

/-- A search that rejects with an error object carrying the message. -/
def searchFailing (message : String) : SearchFn :=
  fun _ => .error (.obj [("message", .str message)])

/-- The record of the end-to-end scenario: no priority, no assignee. -/
def issueVSFT42 : JSVal :=
  .obj [("key", .str "VSFT-42"),
    ("fields", .obj [("issuetype", .obj [("name", .str "Bug")]),
      ("status", .obj [("name", .str "Open")]),
      ("summary", .str "Crash on load"),
      ("labels", .arr [.str "regression"])])]

/-! ## Well-formed records -/

/-- The value is a string. -/
def isStr : JSVal → Bool
  | .str _ => true
  | _ => false

/-- The value is an array whose items are all strings. -/
def isStrArr : JSVal → Bool
  | .arr xs => xs.all isStr
  | _ => false

/-- ToString of the value succeeds. -/
def printable (v : JSVal) : Bool :=
  match toStr v with
  | .ok _ => true
  | .error _ => false

/-- The text ToString gives for the value (empty when ToString throws). -/
def textOf (v : JSVal) : String :=
  match toStr v with
  | .ok s => s
  | .error _ => ""

/-- The field set `issue.fields` of a raw record. -/
def fieldsOf (issue : JSVal) : JSVal := getProp issue "fields"

/-- The required fields of a raw record are present: the key, the names of the
issue type and of the status, and the summary are strings. -/
def requiredPresent (issue : JSVal) : Bool :=
  isStr (getProp issue "key")
    && isStr (getProp (getProp (fieldsOf issue) "issuetype") "name")
    && isStr (getProp (getProp (fieldsOf issue) "status") "name")
    && isStr (getProp (fieldsOf issue) "summary")

/-- An optional nested field is absent (`undefined` or `null`) or is an object
whose property `k` is a string. -/
def optNamed (v : JSVal) (k : String) : Bool :=
  nullish v || isStr (getProp v k)

/-- A well-formed raw record: the required fields are present, `labels` is an
array of strings, priority, assignee and reporter are absent or carry a string
name, and the timestamps and the four extension fields are absent or hold a
value that converts to a string. -/
def wellFormed (issue : JSVal) : Bool :=
  requiredPresent issue
    && isStrArr (getProp (fieldsOf issue) "labels")
    && optNamed (getProp (fieldsOf issue) "priority") "name"
    && optNamed (getProp (fieldsOf issue) "assignee") "displayName"
    && optNamed (getProp (fieldsOf issue) "reporter") "displayName"
    && printable (getProp (fieldsOf issue) "created")
    && printable (getProp (fieldsOf issue) "updated")
    && printable (getProp (fieldsOf issue) "customfield_11210")
    && printable (getProp (fieldsOf issue) "customfield_11211")
    && printable (getProp (fieldsOf issue) "customfield_11215")
    && printable (getProp (fieldsOf issue) "customfield_11179")

/-- The ticket that the projection builds from a record when nothing throws. -/
def ticketOf (issue : JSVal) : Ticket :=
  { key := getProp issue "key"
    url := BASE_TICKET_URL ++ textOf (getProp issue "key")
    type := getProp (getProp (fieldsOf issue) "issuetype") "name"
    status := getProp (getProp (fieldsOf issue) "status") "name"
    priority := jsOr (optChain (getProp (fieldsOf issue) "priority") "name") (.str "N/A")
    summary := getProp (fieldsOf issue) "summary"
    description := jsOr (getProp (fieldsOf issue) "description") (.str "")
    assignee :=
      jsOr (optChain (getProp (fieldsOf issue) "assignee") "displayName") (.str "Unassigned")
    reporter :=
      jsOr (optChain (getProp (fieldsOf issue) "reporter") "displayName") (.str "Unknown")
    created := getProp (fieldsOf issue) "created"
    updated := getProp (fieldsOf issue) "updated"
    labels := getProp (fieldsOf issue) "labels"
    rawFields := fieldsOf issue }

/-! ## The output the specification describes -/

/-- The text the specification shows for the labels: the labels joined with
`, `, or `None` when that text is empty. -/
def specLabels (labels : JSVal) : String :=
  match labels with
  | .arr xs =>
    if ", ".intercalate (xs.map textOf) = "" then "None"
    else ", ".intercalate (xs.map textOf)
  | _ => "None"

/-- The fourteen lines of the block that section 6 of the specification
prescribes for the `k`-th record (`k` counted from 1). -/
def specBlock (k : Nat) (issue : JSVal) : List String :=
  [ toString k ++ ". [" ++ textOf (getProp (getProp (fieldsOf issue) "issuetype") "name")
      ++ "] " ++ textOf (getProp issue "key")
      ++ " - " ++ textOf (getProp (fieldsOf issue) "summary"),
    "   🧾 Status: " ++ textOf (getProp (getProp (fieldsOf issue) "status") "name"),
    "   🧾 Priority: " ++ textOf (ticketOf issue).priority,
    "   👤 Assignee: " ++ textOf (ticketOf issue).assignee,
    "   👤 Reporter: " ++ textOf (ticketOf issue).reporter,
    "   🕒 Created: " ++ textOf (getProp (fieldsOf issue) "created"),
    "   🔄 Updated: " ++ textOf (getProp (fieldsOf issue) "updated"),
    "   🏷  Labels: " ++ specLabels (getProp (fieldsOf issue) "labels"),
    "   📦 [Product Item]: " ++ textOf (getProp (fieldsOf issue) "customfield_11210"),
    "   📦 [Environment]: " ++ textOf (getProp (fieldsOf issue) "customfield_11211"),
    "   📦 [Feature]: " ++ textOf (getProp (fieldsOf issue) "customfield_11215"),
    "   📦 [Testing version]: " ++ textOf (getProp (fieldsOf issue) "customfield_11179"),
    "   🔗 " ++ (BASE_TICKET_URL ++ textOf (getProp issue "key")),
    "" ]

/-- The blocks of a sequence of records, the first one numbered `k`. -/
def specBlocks : List JSVal → Nat → List String
  | [], _ => []
  | issue :: rest, k => specBlock k issue ++ specBlocks rest (k + 1)

/-- The first `console.log` call: the total line, which ends in a newline of
its own and so leaves a blank line behind it. -/
def totalLine (n : Nat) : String :=
  "Total " ++ toString n ++ " issues in version \"" ++ FIX_VERSION ++ "\":\n"

/-! ## Kinds of failure -/

/-- The thrown value is a `TypeError` of the runtime. -/
def isTypeError : Thrown → Bool
  | .typeError _ => true
  | .value _ => false

/-! ## More sample data -/

/-- A record with every optional field present. -/
def issueFull : JSVal :=
  .obj [("key", .str "VSFT-7"),
    ("fields", .obj [("issuetype", .obj [("name", .str "Story")]),
      ("status", .obj [("name", .str "Done")]),
      ("priority", .obj [("name", .str "High")]),
      ("summary", .str "Export report"),
      ("description", .str ""),
      ("assignee", .obj [("displayName", .str "Ann")]),
      ("reporter", .obj [("displayName", .str "Bob")]),
      ("created", .str "2024-01-02T10:00:00.000+0000"),
      ("updated", .str "2024-01-03T10:00:00.000+0000"),
      ("labels", .arr [.str "a", .str "b"]),
      ("customfield_11210", .str "Viewer")])]

/-- A record whose priority, assignee and reporter are present with an empty
name. -/
def issueBlankNames : JSVal :=
  .obj [("key", .str "VSFT-8"),
    ("fields", .obj [("issuetype", .obj [("name", .str "Task")]),
      ("status", .obj [("name", .str "Open")]),
      ("priority", .obj [("name", .str "")]),
      ("summary", .str "Blank names"),
      ("assignee", .obj [("displayName", .str "")]),
      ("reporter", .obj [("displayName", .str "")]),
      ("labels", .arr [])])]

/-- A record with the required fields and an empty label list, every optional
field absent. -/
def issueBare : JSVal :=
  .obj [("key", .str "VSFT-9"),
    ("fields", .obj [("issuetype", .obj [("name", .str "Task")]),
      ("status", .obj [("name", .str "Open")]),
      ("summary", .str "Bare"),
      ("labels", .arr [])])]

/-- A record with the required fields and no `labels` field. -/
def issueNoLabels : JSVal :=
  .obj [("key", .str "VSFT-10"),
    ("fields", .obj [("issuetype", .obj [("name", .str "Task")]),
      ("status", .obj [("name", .str "Open")]),
      ("summary", .str "No labels")])]

/-- A record whose only label is the empty string. -/
def issueEmptyLabel : JSVal :=
  .obj [("key", .str "VSFT-11"),
    ("fields", .obj [("issuetype", .obj [("name", .str "Task")]),
      ("status", .obj [("name", .str "Open")]),
      ("summary", .str "Empty label"),
      ("labels", .arr [.str ""])])]

/-- A record with the required fields and an empty label list whose extension
field `customfield_11211` is an object with an own `toString` property. -/
def issueShadowedToString : JSVal :=
  .obj [("key", .str "VSFT-13"),
    ("fields", .obj [("issuetype", .obj [("name", .str "Task")]),
      ("status", .obj [("name", .str "Open")]),
      ("summary", .str "Shadowed toString"),
      ("labels", .arr []),
      ("customfield_11211", .obj [("toString", .null)])])]

/-- A record without the `status` field. -/
def issueNoStatus : JSVal :=
  .obj [("key", .str "VSFT-12"),
    ("fields", .obj [("issuetype", .obj [("name", .str "Task")]),
      ("summary", .str "No status"),
      ("labels", .arr [])])]

/-- The text of the blocks of a sequence of records, the first numbered `k`. -/
def blocksText : List JSVal → Nat → String
  | [], _ => ""
  | issue :: rest, k => linesText (specBlock k issue) ++ blocksText rest (k + 1)

/-! ## Basic facts about values -/

theorem isStr_iff (v : JSVal) : isStr v = true ↔ ∃ s, v = .str s := by
  cases v <;> simp [isStr]

theorem not_nullish_of_getProp_str {v : JSVal} {k : String}
    (h : isStr (getProp v k) = true) : nullish v = false := by
  cases v <;> simp_all [getProp, isStr, nullish]

theorem readProp_of_not_nullish {v : JSVal} (k : String) (h : nullish v = false) :
    readProp v k = .ok (getProp v k) := by
  cases v <;> simp_all [readProp, nullish]

theorem toStr_of_printable {v : JSVal} (h : printable v = true) :
    toStr v = .ok (textOf v) := by
  unfold printable at h
  unfold textOf
  cases hv : toStr v <;> simp_all

theorem printable_str (s : String) : printable (.str s) = true := by
  simp [printable, toStr]

theorem textOf_str (s : String) : textOf (.str s) = s := by
  simp [textOf, toStr]

theorem printable_of_isStr {v : JSVal} (h : isStr v = true) : printable v = true := by
  obtain ⟨s, rfl⟩ := (isStr_iff v).1 h
  exact printable_str s

/-! ## The projection succeeds on records with the required fields -/

theorem issueToTicket_of_required {issue : JSVal} (h : requiredPresent issue = true) :
    issueToTicket issue = .ok (ticketOf issue) := by
  simp only [requiredPresent, Bool.and_eq_true] at h
  obtain ⟨⟨⟨hk, hty⟩, hst⟩, _⟩ := h
  have hissue : nullish issue = false := not_nullish_of_getProp_str hk
  have hit : nullish (getProp (fieldsOf issue) "issuetype") = false :=
    not_nullish_of_getProp_str hty
  have hs : nullish (getProp (fieldsOf issue) "status") = false :=
    not_nullish_of_getProp_str hst
  have hf : nullish (fieldsOf issue) = false := by
    cases hfv : fieldsOf issue <;> simp_all [getProp, nullish]
  have hkey : toStr (getProp issue "key") = .ok (textOf (getProp issue "key")) :=
    toStr_of_printable (printable_of_isStr hk)
  unfold fieldsOf at hit hs hf
  simp [issueToTicket, ticketOf, fieldsOf, readProp_of_not_nullish _ hissue,
    readProp_of_not_nullish _ hf, readProp_of_not_nullish _ hit,
    readProp_of_not_nullish _ hs, hkey, bind, Except.bind, pure, Except.pure]

theorem mapIssues_of_required {issues : List JSVal}
    (h : ∀ r ∈ issues, requiredPresent r = true) :
    mapIssues issues = .ok (issues.map ticketOf) := by
  induction issues with
  | nil => rfl
  | cons r rest ih =>
    have hr := h r (List.mem_cons_self r rest)
    have hrest := ih (fun x hx => h x (List.mem_cons_of_mem r hx))
    simp [mapIssues, issueToTicket_of_required hr, hrest]

theorem fetchFullTickets_of_required {search : SearchFn} {projectKey fixVersionName : String}
    {result : JSVal} {issues : List JSVal}
    (hs : search (searchRequest projectKey fixVersionName) = .ok result)
    (hi : getProp result "issues" = .arr issues)
    (h : ∀ r ∈ issues, requiredPresent r = true) :
    fetchFullTickets search projectKey fixVersionName = .ok (issues.map ticketOf) := by
  have hres : nullish result = false := by
    cases result <;> simp_all [getProp, nullish]
  simp [fetchFullTickets, hs, readProp_of_not_nullish _ hres, hi, callMap,
    mapIssues_of_required h]

/-! ## Rendering facts -/

theorem itemTexts_strings (xs : List JSVal) (h : xs.all isStr = true) :
    itemTexts xs = .ok (xs.map textOf) := by
  induction xs with
  | nil => simp [itemTexts]
  | cons x rest ih =>
    simp only [List.all_cons, Bool.and_eq_true] at h
    obtain ⟨s, rfl⟩ := (isStr_iff x).1 h.1
    simp [itemTexts, toStr, ih h.2, textOf_str]

theorem joinItems_strings (sep : String) (xs : List JSVal)
    (h : xs.all isStr = true) :
    joinItems sep xs = .ok (sep.intercalate (xs.map textOf)) := by
  simp [joinItems, itemTexts_strings xs h]

theorem labelsText_of_strings (t : Ticket) (h : isStrArr t.labels = true) :
    labelsText t = .ok (specLabels t.labels) := by
  cases hl : t.labels <;> simp [hl, isStrArr] at h
  case arr xs =>
    have hall : xs.all isStr = true := by simpa using h
    simp [labelsText, callJoin, hl, joinItems_strings ", " xs hall, specLabels, bind,
      Except.bind, pure, Except.pure]

theorem fieldLine_of_printable (label : String) {v : JSVal} (h : printable v = true) :
    fieldLine label v = .ok (label ++ textOf v) := by
  simp [fieldLine, toStr_of_printable h, bind, Except.bind, pure, Except.pure]

theorem customLine_of_printable (label : String) (t : Ticket) (name : String)
    (hr : nullish t.rawFields = false) (h : printable (getProp t.rawFields name) = true) :
    customLine label t name = .ok (label ++ textOf (getProp t.rawFields name)) := by
  simp [customLine, readProp_of_not_nullish _ hr, toStr_of_printable h, bind, Except.bind,
    pure, Except.pure]

theorem printable_default {v : JSVal} (k d : String) (h : optNamed v k = true) :
    printable (jsOr (optChain v k) (.str d)) = true := by
  unfold optNamed at h
  cases hn : nullish v
  · simp only [hn, Bool.false_or] at h
    obtain ⟨s, hs⟩ := (isStr_iff _).1 h
    by_cases he : s = "" <;> simp [jsOr, optChain, hn, hs, truthy, he, printable, toStr]
  · simp [jsOr, optChain, hn, truthy, printable, toStr]

theorem headerLine_of_printable (i : Nat) (t : Ticket) (h1 : printable t.type = true)
    (h2 : printable t.key = true) (h3 : printable t.summary = true) :
    headerLine i t = .ok (toString (i + 1) ++ ". [" ++ textOf t.type ++ "] " ++ textOf t.key
      ++ " - " ++ textOf t.summary) := by
  simp [headerLine, toStr_of_printable h1, toStr_of_printable h2, toStr_of_printable h3,
    bind, Except.bind, pure, Except.pure]

theorem labelsLine_of_strings (t : Ticket) (h : isStrArr t.labels = true) :
    labelsLine t = .ok ("   🏷  Labels: " ++ specLabels t.labels) := by
  simp [labelsLine, labelsText_of_strings t h, bind, Except.bind, pure, Except.pure]

/-- Printing the ticket of a well-formed record appends exactly the block of
the specification and does not throw. -/
theorem printTicket_of_wellFormed {issue : JSVal} (h : wellFormed issue = true) (i : Nat)
    (out : List String) :
    printTicket (ticketOf issue) i out = (.ok (), out ++ specBlock (i + 1) issue) := by
  simp only [wellFormed, requiredPresent, Bool.and_eq_true] at h
  obtain ⟨⟨⟨⟨⟨⟨⟨⟨⟨⟨⟨⟨⟨hk, hty⟩, hst⟩, hsm⟩, hl⟩, hp⟩, ha⟩, hr⟩, hc⟩, hu⟩, h1⟩, h2⟩, h3⟩, h4⟩ := h
  have hf : nullish (fieldsOf issue) = false := not_nullish_of_getProp_str hsm
  have e0 := headerLine_of_printable i (ticketOf issue) (printable_of_isStr hty)
    (printable_of_isStr hk) (printable_of_isStr hsm)
  have e1 := fieldLine_of_printable "   🧾 Status: " (printable_of_isStr hst)
  have e2 := fieldLine_of_printable "   🧾 Priority: " (printable_default "name" "N/A" hp)
  have e3 := fieldLine_of_printable "   👤 Assignee: "
    (printable_default "displayName" "Unassigned" ha)
  have e4 := fieldLine_of_printable "   👤 Reporter: "
    (printable_default "displayName" "Unknown" hr)
  have e5 := fieldLine_of_printable "   🕒 Created: " hc
  have e6 := fieldLine_of_printable "   🔄 Updated: " hu
  have e7 := labelsLine_of_strings (ticketOf issue) hl
  have e8 := customLine_of_printable "   📦 [Product Item]: " (ticketOf issue)
    "customfield_11210" hf h1
  have e9 := customLine_of_printable "   📦 [Environment]: " (ticketOf issue)
    "customfield_11211" hf h2
  have e10 := customLine_of_printable "   📦 [Feature]: " (ticketOf issue)
    "customfield_11215" hf h3
  have e11 := customLine_of_printable "   📦 [Testing version]: " (ticketOf issue)
    "customfield_11179" hf h4
  simp only [ticketOf] at e0 e1 e2 e3 e4 e5 e6 e7 e8 e9 e10 e11
  simp [printTicket, bind, Proc.andThen, evalE, consoleLog, specBlock, ticketOf, e0, e1, e2,
    e3, e4, e5, e6, e7, e8, e9, e10, e11]

theorem forEachTicket_of_wellFormed (issues : List JSVal)
    (h : ∀ r ∈ issues, wellFormed r = true) (i : Nat) (out : List String) :
    forEachTicket (issues.map ticketOf) i out = (.ok (), out ++ specBlocks issues (i + 1)) := by
  induction issues generalizing i out with
  | nil => simp [forEachTicket, specBlocks, pure]
  | cons r rest ih =>
    have hr := h r (List.mem_cons_self r rest)
    have hrest := ih (fun x hx => h x (List.mem_cons_of_mem r hx))
    simp [forEachTicket, specBlocks, bind, Proc.andThen, printTicket_of_wellFormed hr, hrest]

theorem required_of_wellFormed {issue : JSVal} (h : wellFormed issue = true) :
    requiredPresent issue = true := by
  simp only [wellFormed, Bool.and_eq_true] at h
  exact h.1.1.1.1.1.1.1.1.1.1

/-- The whole run on well-formed records: the total line, the blocks, no
error. -/
theorem main_of_wellFormed {search : SearchFn} {result : JSVal} {issues : List JSVal}
    (hs : search (searchRequest JIRA_PROJECT_KEY FIX_VERSION) = .ok result)
    (hi : getProp result "issues" = .arr issues)
    (h : ∀ r ∈ issues, wellFormed r = true) :
    main search = { stdout := totalLine issues.length :: specBlocks issues 1, stderr := [],
                    completion := .fulfilled } := by
  have hf := fetchFullTickets_of_required hs hi (fun r hr => required_of_wellFormed (h r hr))
  have ht : mainTry search [] = (.ok (), totalLine issues.length :: specBlocks issues 1) := by
    simp [mainTry, bind, Proc.andThen, evalE, consoleLog, hf,
      forEachTicket_of_wellFormed issues h, totalLine]
  simp [main, ht]

/-! ## Positions of the blocks -/

theorem specBlock_length (k : Nat) (issue : JSVal) : (specBlock k issue).length = 14 := rfl

theorem specBlocks_length (issues : List JSVal) (k : Nat) :
    (specBlocks issues k).length = 14 * issues.length := by
  induction issues generalizing k with
  | nil => rfl
  | cons r rest ih =>
    simp only [specBlocks, List.length_append, specBlock_length, ih, List.length_cons]
    omega

theorem specBlocks_getElem? (issues : List JSVal) (k i c : Nat) (r : JSVal)
    (hr : issues[i]? = some r) (hc : c < 14) :
    (specBlocks issues k)[14 * i + c]? = (specBlock (k + i) r)[c]? := by
  induction issues generalizing k i with
  | nil => simp at hr
  | cons x rest ih =>
    cases i with
    | zero =>
      simp only [List.getElem?_cons_zero, Option.some.injEq] at hr
      subst hr
      simp only [specBlocks, Nat.mul_zero, Nat.zero_add, Nat.add_zero]
      rw [List.getElem?_append_left (by rw [specBlock_length]; exact hc)]
    | succ j =>
      simp only [List.getElem?_cons_succ] at hr
      simp only [specBlocks]
      rw [List.getElem?_append_right (by rw [specBlock_length]; omega), specBlock_length]
      have := ih (k + 1) j hr
      have e1 : 14 * (j + 1) + c - 14 = 14 * j + c := by omega
      have e2 : k + (j + 1) = k + 1 + j := by omega
      rw [e1, e2]
      exact this

/-! ## Text of standard output -/

theorem join_cons (a : String) (l : List String) : String.join (a :: l) = a ++ String.join l := by
  apply String.ext
  simp [String.join_eq]

theorem join_append (l1 l2 : List String) :
    String.join (l1 ++ l2) = String.join l1 ++ String.join l2 := by
  apply String.ext
  simp [String.join_eq]

/-! ## When the joined labels are empty -/

theorem intercalate_go_length (sep acc : String) (rest : List String) :
    acc.length ≤ (String.intercalate.go acc sep rest).length := by
  induction rest generalizing acc with
  | nil => simp [String.intercalate.go]
  | cons b more ih =>
    rw [String.intercalate.go]
    have := ih (acc ++ sep ++ b)
    simp only [String.length_append] at this
    omega

theorem intercalate_comma_eq_empty (ls : List String) :
    ", ".intercalate ls = "" ↔ ls = [] ∨ ls = [""] := by
  cases ls with
  | nil => simp [String.intercalate]
  | cons a rest =>
    cases rest with
    | nil =>
      simp [String.intercalate, String.intercalate.go]
    | cons b more =>
      simp only [String.intercalate, String.intercalate.go, reduceCtorEq, List.cons.injEq,
        and_false, or_self, iff_false]
      intro h
      have hlen := intercalate_go_length ", " (a ++ ", " ++ b) more
      rw [h] at hlen
      simp only [String.length_append] at hlen
      have h2 : ", ".length = 2 := by decide
      have h0 : "".length = 0 := by decide
      omega

/-! ## Failures of the projection -/

mutual
theorem toStr_error_isTypeError (v : JSVal) (e : Thrown) (h : toStr v = .error e) :
    isTypeError e = true := by
  cases v with
  | undefined => simp [toStr] at h
  | null => simp [toStr] at h
  | bool b => simp [toStr] at h
  | num t => simp [toStr] at h
  | str s => simp [toStr] at h
  | arr xs =>
    simp only [toStr] at h
    cases hx : itemTexts xs with
    | error e2 =>
      rw [hx] at h
      simp only [Except.error.injEq] at h
      subst h
      exact itemTexts_error_isTypeError xs e2 hx
    | ok texts => rw [hx] at h; simp at h
  | obj ps =>
    simp only [toStr] at h
    split at h
    · simp only [Except.error.injEq] at h
      subst h
      rfl
    · simp at h
theorem itemTexts_error_isTypeError (xs : List JSVal) (e : Thrown)
    (h : itemTexts xs = .error e) : isTypeError e = true := by
  cases xs with
  | nil => simp [itemTexts] at h
  | cons x rest =>
    have hrest : ∀ e2, itemTexts rest = .error e2 → isTypeError e2 = true :=
      fun e2 h2 => itemTexts_error_isTypeError rest e2 h2
    have hx : ∀ e2, toStr x = .error e2 → isTypeError e2 = true :=
      fun e2 h2 => toStr_error_isTypeError x e2 h2
    cases hr : itemTexts rest with
    | error e2 =>
      have := hrest e2 hr
      cases x <;> simp only [itemTexts, hr] at h
      all_goals first
        | (simp only [Except.error.injEq] at h; subst h; exact this)
        | (split at h
           · simp only [Except.error.injEq] at h
             subst h
             exact hx _ (by assumption)
           · simp only [Except.error.injEq] at h
             subst h
             exact this)
    | ok texts =>
      cases x <;> simp only [itemTexts, hr] at h
      all_goals first
        | (simp at h)
        | (split at h
           · simp only [Except.error.injEq] at h
             subst h
             exact hx _ (by assumption)
           · simp at h)
end

theorem readProp_error_isTypeError (v : JSVal) (k : String) (e : Thrown)
    (h : readProp v k = .error e) : isTypeError e = true := by
  cases v <;> simp [readProp] at h <;> subst h <;> rfl

theorem readProp_ok_getProp (v : JSVal) (k : String) (w : JSVal)
    (h : readProp v k = .ok w) : nullish v = false ∧ w = getProp v k := by
  cases v <;> simp [readProp] at h <;> subst h <;> simp [nullish]

theorem issueToTicket_error_isTypeError (issue : JSVal) (e : Thrown)
    (h : issueToTicket issue = .error e) : isTypeError e = true := by
  simp only [issueToTicket, bind, Except.bind, pure, Except.pure] at h
  repeat' split at h
  all_goals first
    | (simp at h; done)
    | (simp only [Except.error.injEq] at h
       subst h
       first
         | exact readProp_error_isTypeError _ _ _ (by assumption)
         | exact toStr_error_isTypeError _ _ (by assumption))

theorem issueToTicket_ok_required (issue : JSVal) (t : Ticket)
    (h : issueToTicket issue = .ok t) :
    nullish (getProp (fieldsOf issue) "issuetype") = false
      ∧ nullish (getProp (fieldsOf issue) "status") = false := by
  simp only [issueToTicket, bind, Except.bind, pure, Except.pure] at h
  repeat' split at h
  all_goals first
    | (simp at h; done)
    | skip
  rename_i x1 f hf x2 key hkey x3 keyText hkt x4 issuetype hit x5 type hty x6 st hst x7
    status hstatus
  obtain ⟨_, rfl⟩ := readProp_ok_getProp _ _ _ hf
  obtain ⟨_, rfl⟩ := readProp_ok_getProp _ _ _ hit
  obtain ⟨_, rfl⟩ := readProp_ok_getProp _ _ _ hst
  exact ⟨(readProp_ok_getProp _ _ _ hty).1, (readProp_ok_getProp _ _ _ hstatus).1⟩

theorem mapIssues_error_isTypeError (issues : List JSVal) (e : Thrown)
    (h : mapIssues issues = .error e) : isTypeError e = true := by
  induction issues with
  | nil => simp [mapIssues] at h
  | cons r rest ih =>
    simp only [mapIssues] at h
    split at h
    · simp only [Except.error.injEq] at h
      subst h
      exact issueToTicket_error_isTypeError r _ (by assumption)
    · split at h
      · simp only [Except.error.injEq] at h
        subst h
        exact ih (by assumption)
      · simp at h

theorem mapIssues_ok_required (issues : List JSVal) (ts : List Ticket)
    (h : mapIssues issues = .ok ts) :
    ∀ r ∈ issues, nullish (getProp (fieldsOf r) "issuetype") = false
      ∧ nullish (getProp (fieldsOf r) "status") = false := by
  induction issues generalizing ts with
  | nil => simp
  | cons r rest ih =>
    simp only [mapIssues] at h
    split at h
    · simp at h
    · rename_i t ht
      split at h
      · simp at h
      · rename_i ts2 hts
        intro x hx
        rcases List.mem_cons.1 hx with rfl | hx
        · exact issueToTicket_ok_required x t ht
        · exact ih ts2 hts x hx

/-- A record without issue type or status makes the whole projection throw a
`TypeError`. -/
theorem mapIssues_missing_required (issues : List JSVal) (r : JSVal) (hr : r ∈ issues)
    (hbad : nullish (getProp (fieldsOf r) "issuetype") = true
      ∨ nullish (getProp (fieldsOf r) "status") = true) :
    ∃ m, mapIssues issues = .error (.typeError m) := by
  cases h : mapIssues issues with
  | error e =>
    have := mapIssues_error_isTypeError issues e h
    cases e with
    | typeError m => exact ⟨m, rfl⟩
    | value v => simp [isTypeError] at this
  | ok ts =>
    have := mapIssues_ok_required issues ts h r hr
    rcases hbad with hb | hb <;> simp [hb] at this

/-! ## Defaulting facts -/

theorem jsOr_of_nullish {v : JSVal} (d : JSVal) (h : nullish v = true) : jsOr v d = d := by
  cases v <;> simp_all [nullish, jsOr, truthy]

theorem optChain_of_nullish {v : JSVal} (k : String) (h : nullish v = true) :
    optChain v k = .undefined := by
  simp [optChain, h]

theorem optChain_of_str {v : JSVal} {k s : String} (h : getProp v k = .str s) :
    optChain v k = .str s := by
  have hn : nullish v = false := not_nullish_of_getProp_str (by rw [h]; rfl)
  simp [optChain, hn, h]

theorem jsOr_str_nonempty {s : String} (d : JSVal) (h : s ≠ "") : jsOr (.str s) d = .str s := by
  simp [jsOr, truthy, h]

theorem linesText_specBlocks (issues : List JSVal) (k : Nat) :
    linesText (specBlocks issues k) = blocksText issues k := by
  induction issues generalizing k with
  | nil => rfl
  | cons r rest ih =>
    simp only [specBlocks, blocksText, linesText, List.map_append, join_append]
    rw [← ih (k + 1)]
    rfl

/-! ## Claims about the projection -/

/-- Claim C1: for raw records whose required fields are present,
`fetchFullTickets` returns tickets in which an absent (`undefined` or `null`)
priority gives the string `N/A`, an absent assignee `Unassigned`, an absent
reporter `Unknown` and an absent description the empty string. -/
theorem absent_optionals_get_defaults (search : SearchFn) (projectKey fixVersionName : String)
    (result : JSVal) (issues : List JSVal)
    (hs : search (searchRequest projectKey fixVersionName) = .ok result)
    (hi : getProp result "issues" = .arr issues)
    (hreq : ∀ r ∈ issues, requiredPresent r = true) :
    ∃ tickets, fetchFullTickets search projectKey fixVersionName = .ok tickets ∧
      List.Forall₂ (fun r t =>
        (nullish (getProp (fieldsOf r) "priority") = true → t.priority = .str "N/A") ∧
        (nullish (getProp (fieldsOf r) "assignee") = true → t.assignee = .str "Unassigned") ∧
        (nullish (getProp (fieldsOf r) "reporter") = true → t.reporter = .str "Unknown") ∧
        (nullish (getProp (fieldsOf r) "description") = true → t.description = .str ""))
        issues tickets := by
  refine ⟨issues.map ticketOf, fetchFullTickets_of_required hs hi hreq, ?_⟩
  rw [List.forall₂_map_right_iff, List.forall₂_same]
  intro r _
  refine ⟨?_, ?_, ?_, ?_⟩ <;> intro h
  · simp [ticketOf, optChain_of_nullish _ h, jsOr, truthy]
  · simp [ticketOf, optChain_of_nullish _ h, jsOr, truthy]
  · simp [ticketOf, optChain_of_nullish _ h, jsOr, truthy]
  · simp [ticketOf, jsOr_of_nullish _ h]

/-- Witness of C1 on the record of the end-to-end scenario, which has no
priority, assignee, reporter or description. -/
theorem absent_optionals_get_defaults_witness :
    (∀ r ∈ [issueVSFT42], requiredPresent r = true) ∧
    ∃ tickets, fetchFullTickets (searchReturning [issueVSFT42]) JIRA_PROJECT_KEY FIX_VERSION
        = .ok tickets ∧
      List.Forall₂ (fun r t =>
        (nullish (getProp (fieldsOf r) "priority") = true → t.priority = .str "N/A") ∧
        (nullish (getProp (fieldsOf r) "assignee") = true → t.assignee = .str "Unassigned") ∧
        (nullish (getProp (fieldsOf r) "reporter") = true → t.reporter = .str "Unknown") ∧
        (nullish (getProp (fieldsOf r) "description") = true → t.description = .str ""))
        [issueVSFT42] tickets :=
  ⟨by simp; rfl,
   absent_optionals_get_defaults (searchReturning [issueVSFT42]) JIRA_PROJECT_KEY FIX_VERSION
    (.obj [("issues", .arr [issueVSFT42])]) [issueVSFT42] rfl rfl (by simp; rfl)⟩

/-- Counterexample to C2 as stated: a priority, assignee and reporter that are
present with the empty string as name are not copied; the ticket gets the
defaults `N/A`, `Unassigned` and `Unknown`. -/
theorem empty_names_not_copied :
    getProp (getProp (fieldsOf issueBlankNames) "priority") "name" = .str "" ∧
    getProp (getProp (fieldsOf issueBlankNames) "assignee") "displayName" = .str "" ∧
    getProp (getProp (fieldsOf issueBlankNames) "reporter") "displayName" = .str "" ∧
    ∃ t, fetchFullTickets (searchReturning [issueBlankNames]) JIRA_PROJECT_KEY FIX_VERSION
        = .ok [t] ∧
      t.priority = .str "N/A" ∧ t.assignee = .str "Unassigned" ∧ t.reporter = .str "Unknown" ∧
      t.priority ≠ .str "" ∧ t.assignee ≠ .str "" ∧ t.reporter ≠ .str "" :=
  ⟨rfl, rfl, rfl, ticketOf issueBlankNames, rfl, rfl, rfl, rfl,
    by simp [ticketOf, issueBlankNames, fieldsOf, getProp, lookup, optChain, nullish, jsOr,
      truthy],
    by simp [ticketOf, issueBlankNames, fieldsOf, getProp, lookup, optChain, nullish, jsOr,
      truthy],
    by simp [ticketOf, issueBlankNames, fieldsOf, getProp, lookup, optChain, nullish, jsOr,
      truthy]⟩

/-- Claim C2, amended: for raw records whose required fields are present, a
priority name, assignee display name or reporter display name that is a
non-empty string is copied verbatim into the ticket, and a description that is
a string (the empty string included) is copied verbatim. -/
theorem present_optionals_copied (search : SearchFn) (projectKey fixVersionName : String)
    (result : JSVal) (issues : List JSVal)
    (hs : search (searchRequest projectKey fixVersionName) = .ok result)
    (hi : getProp result "issues" = .arr issues)
    (hreq : ∀ r ∈ issues, requiredPresent r = true) :
    ∃ tickets, fetchFullTickets search projectKey fixVersionName = .ok tickets ∧
      List.Forall₂ (fun r t =>
        (∀ s, getProp (getProp (fieldsOf r) "priority") "name" = .str s → s ≠ "" →
          t.priority = .str s) ∧
        (∀ s, getProp (getProp (fieldsOf r) "assignee") "displayName" = .str s → s ≠ "" →
          t.assignee = .str s) ∧
        (∀ s, getProp (getProp (fieldsOf r) "reporter") "displayName" = .str s → s ≠ "" →
          t.reporter = .str s) ∧
        (∀ s, getProp (fieldsOf r) "description" = .str s → t.description = .str s))
        issues tickets := by
  refine ⟨issues.map ticketOf, fetchFullTickets_of_required hs hi hreq, ?_⟩
  rw [List.forall₂_map_right_iff, List.forall₂_same]
  intro r _
  refine ⟨?_, ?_, ?_, ?_⟩
  · intro s h hne
    simp [ticketOf, optChain_of_str h, jsOr_str_nonempty _ hne]
  · intro s h hne
    simp [ticketOf, optChain_of_str h, jsOr_str_nonempty _ hne]
  · intro s h hne
    simp [ticketOf, optChain_of_str h, jsOr_str_nonempty _ hne]
  · intro s h
    by_cases he : s = "" <;> simp [ticketOf, h, jsOr, truthy, he]

/-- Witness of the amended C2 on a record with every optional field present
(its description is the empty string). -/
theorem present_optionals_copied_witness :
    (∀ r ∈ [issueFull], requiredPresent r = true) ∧
    ∃ tickets, fetchFullTickets (searchReturning [issueFull]) JIRA_PROJECT_KEY FIX_VERSION
        = .ok tickets ∧
      List.Forall₂ (fun r t =>
        (∀ s, getProp (getProp (fieldsOf r) "priority") "name" = .str s → s ≠ "" →
          t.priority = .str s) ∧
        (∀ s, getProp (getProp (fieldsOf r) "assignee") "displayName" = .str s → s ≠ "" →
          t.assignee = .str s) ∧
        (∀ s, getProp (getProp (fieldsOf r) "reporter") "displayName" = .str s → s ≠ "" →
          t.reporter = .str s) ∧
        (∀ s, getProp (fieldsOf r) "description" = .str s → t.description = .str s))
        [issueFull] tickets :=
  ⟨by simp; rfl,
   present_optionals_copied (searchReturning [issueFull]) JIRA_PROJECT_KEY FIX_VERSION
    (.obj [("issues", .arr [issueFull])]) [issueFull] rfl rfl (by simp; rfl)⟩

/-- Claim C8: for raw records whose required fields are present, the url of
the ticket built from a record with key `k` is exactly
`https://` + JIRA_DOMAIN + `/browse/` followed by `k`; nothing but the key
enters it. -/
theorem url_is_base_plus_key (search : SearchFn) (projectKey fixVersionName : String)
    (result : JSVal) (issues : List JSVal)
    (hs : search (searchRequest projectKey fixVersionName) = .ok result)
    (hi : getProp result "issues" = .arr issues)
    (hreq : ∀ r ∈ issues, requiredPresent r = true) :
    ∃ tickets, fetchFullTickets search projectKey fixVersionName = .ok tickets ∧
      List.Forall₂ (fun r t =>
        ∀ k, getProp r "key" = .str k → t.url = "https://" ++ JIRA_DOMAIN ++ "/browse/" ++ k)
        issues tickets := by
  refine ⟨issues.map ticketOf, fetchFullTickets_of_required hs hi hreq, ?_⟩
  rw [List.forall₂_map_right_iff, List.forall₂_same]
  intro r _ k hk
  simp [ticketOf, hk, textOf_str, BASE_TICKET_URL]

/-- Witness of C8 on two records with different keys and different fields. -/
theorem url_is_base_plus_key_witness :
    (∀ r ∈ [issueVSFT42, issueFull], requiredPresent r = true) ∧
    ∃ tickets, fetchFullTickets (searchReturning [issueVSFT42, issueFull]) JIRA_PROJECT_KEY
        FIX_VERSION = .ok tickets ∧
      List.Forall₂ (fun r t =>
        ∀ k, getProp r "key" = .str k → t.url = "https://" ++ JIRA_DOMAIN ++ "/browse/" ++ k)
        [issueVSFT42, issueFull] tickets :=
  ⟨by simp; exact ⟨rfl, rfl⟩,
   url_is_base_plus_key (searchReturning [issueVSFT42, issueFull]) JIRA_PROJECT_KEY FIX_VERSION
    (.obj [("issues", .arr [issueVSFT42, issueFull])]) [issueVSFT42, issueFull] rfl rfl
    (by simp; exact ⟨rfl, rfl⟩)⟩

/-! ## Claims about the labels line -/

/-- Counterexample to C4 as stated: the label list holding the single label
`""` is not empty, yet the labels line prints `None` and not the joined text
(which is the empty string). -/
theorem single_empty_label_prints_none :
    getProp (fieldsOf issueEmptyLabel) "labels" = .arr [.str ""] ∧
    ", ".intercalate [""] = "" ∧
    (main (searchReturning [issueEmptyLabel])).stdout[8]? = some "   🏷  Labels: None" ∧
    (main (searchReturning [issueEmptyLabel])).stdout[8]? ≠ some ("   🏷  Labels: " ++ "") :=
  ⟨rfl, by decide, by decide, by decide⟩

/-- Claim C4, amended: for a ticket whose labels are the strings `ls`, the
labels line is `Labels: None` when `ls` is empty or is the single empty
label, and otherwise `Labels: ` followed by the labels joined in order with
`, `. -/
theorem labels_line_text (ticket : Ticket) (ls : List String)
    (h : ticket.labels = .arr (ls.map .str)) :
    labelsLine ticket = .ok ("   🏷  Labels: " ++
      (if ls = [] ∨ ls = [""] then "None" else ", ".intercalate ls)) := by
  have hall : (ls.map JSVal.str).all isStr = true := by simp [isStr]
  have hmap : (ls.map JSVal.str).map textOf = ls := by
    simp [List.map_map, Function.comp_def, textOf_str]
  have hl : isStrArr ticket.labels = true := by rw [h]; exact hall
  rw [labelsLine_of_strings ticket hl, h]
  simp only [specLabels, hmap, intercalate_comma_eq_empty]

/-- Witness of the amended C4 on a ticket with the labels `a` and `b`. -/
theorem labels_line_text_witness :
    labelsLine (ticketOf issueFull) = .ok ("   🏷  Labels: " ++
      (if ["a", "b"] = [] ∨ ["a", "b"] = [""] then "None" else ", ".intercalate ["a", "b"])) :=
  labels_line_text (ticketOf issueFull) ["a", "b"] rfl

/-! ## Claims about a failing search -/

/-- Claim C6: when the remote search rejects with an error whose message is
`m`, `main` prints nothing on standard output (no total line, no block) and
makes exactly one `console.error` call, which carries `m`. -/
theorem failed_search_prints_one_error (search : SearchFn) (err : JSVal) (m : String)
    (hs : search (searchRequest JIRA_PROJECT_KEY FIX_VERSION) = .error err)
    (hm : getProp err "message" = .str m) :
    (main search).stdout = [] ∧ stdoutText (main search) = "" ∧
      (main search).stderr = [[.str "❌ Error:", .str m]] := by
  have hn : nullish err = false := not_nullish_of_getProp_str (by rw [hm]; rfl)
  have ht : mainTry search [] = (.error (.value err), []) := by
    simp [mainTry, bind, Proc.andThen, evalE, fetchFullTickets, hs]
  simp [main, ht, errMessage, readProp_of_not_nullish _ hn, hm, stdoutText, linesText,
    String.join]

/-- Witness of C6 on a search that rejects with the message `boom`. -/
theorem failed_search_prints_one_error_witness :
    (main (searchFailing "boom")).stdout = [] ∧ stdoutText (main (searchFailing "boom")) = "" ∧
      (main (searchFailing "boom")).stderr = [[.str "❌ Error:", .str "boom"]] :=
  failed_search_prints_one_error (searchFailing "boom") (.obj [("message", .str "boom")]) "boom"
    rfl rfl

/-- Counterexample to C9 as stated: after a failed search the script ends with
exit status 0. -/
theorem failed_search_exit_status_zero :
    (main (searchFailing "boom")).stderr = [[.str "❌ Error:", .str "boom"]] ∧
    exitStatus (main (searchFailing "boom")) = 0 ∧
    ¬ (exitStatus (main (searchFailing "boom")) ≠ 0) :=
  ⟨rfl, rfl, by decide⟩

/-- Claim C9, amended: when the remote search rejects with an error carrying a
message, `main` catches it, prints the single error line and settles normally;
no exit status is set, so the process ends with status 0. -/
theorem failed_search_settles_normally (search : SearchFn) (err : JSVal) (m : String)
    (hs : search (searchRequest JIRA_PROJECT_KEY FIX_VERSION) = .error err)
    (hm : getProp err "message" = .str m) :
    (main search).stderr = [[.str "❌ Error:", .str m]] ∧
      (main search).completion = .fulfilled ∧ exitStatus (main search) = 0 := by
  have hn : nullish err = false := not_nullish_of_getProp_str (by rw [hm]; rfl)
  have ht : mainTry search [] = (.error (.value err), []) := by
    simp [mainTry, bind, Proc.andThen, evalE, fetchFullTickets, hs]
  simp [main, ht, errMessage, readProp_of_not_nullish _ hn, hm, exitStatus]

/-- Witness of the amended C9 on a search that rejects with the message
`timeout`. -/
theorem failed_search_settles_normally_witness :
    (main (searchFailing "timeout")).stderr = [[.str "❌ Error:", .str "timeout"]] ∧
      (main (searchFailing "timeout")).completion = .fulfilled ∧
      exitStatus (main (searchFailing "timeout")) = 0 :=
  failed_search_settles_normally (searchFailing "timeout")
    (.obj [("message", .str "timeout")]) "timeout" rfl rfl

/-- Claim C10: when one of the raw records returned by the search lacks the
issue type or the status, `fetchFullTickets` throws, `main` prints nothing on
standard output and makes exactly one `console.error` call. -/
theorem missing_required_field_prints_nothing (search : SearchFn) (result : JSVal)
    (issues : List JSVal) (r : JSVal)
    (hs : search (searchRequest JIRA_PROJECT_KEY FIX_VERSION) = .ok result)
    (hi : getProp result "issues" = .arr issues)
    (hr : r ∈ issues)
    (hbad : nullish (getProp (fieldsOf r) "issuetype") = true
      ∨ nullish (getProp (fieldsOf r) "status") = true) :
    (∃ e, fetchFullTickets search JIRA_PROJECT_KEY FIX_VERSION = .error e) ∧
      (main search).stdout = [] ∧
      ∃ m, (main search).stderr = [[.str "❌ Error:", .str m]] := by
  have hres : nullish result = false := by
    cases result <;> simp_all [getProp, nullish]
  obtain ⟨m, hm⟩ := mapIssues_missing_required issues r hr hbad
  have hf : fetchFullTickets search JIRA_PROJECT_KEY FIX_VERSION = .error (.typeError m) := by
    simp [fetchFullTickets, hs, readProp_of_not_nullish _ hres, hi, callMap, hm]
  have ht : mainTry search [] = (.error (.typeError m), []) := by
    simp [mainTry, bind, Proc.andThen, evalE, hf]
  refine ⟨⟨_, hf⟩, ?_, m, ?_⟩ <;> simp [main, ht, errMessage]

/-- Witness of C10: a well-formed record followed by one without status. -/
theorem missing_required_field_prints_nothing_witness :
    (∃ e, fetchFullTickets (searchReturning [issueVSFT42, issueNoStatus]) JIRA_PROJECT_KEY
        FIX_VERSION = .error e) ∧
      (main (searchReturning [issueVSFT42, issueNoStatus])).stdout = [] ∧
      ∃ m, (main (searchReturning [issueVSFT42, issueNoStatus])).stderr
        = [[.str "❌ Error:", .str m]] :=
  missing_required_field_prints_nothing (searchReturning [issueVSFT42, issueNoStatus])
    (.obj [("issues", .arr [issueVSFT42, issueNoStatus])]) [issueVSFT42, issueNoStatus]
    issueNoStatus rfl rfl (by simp) (Or.inr rfl)

/-! ## Claims about the whole report -/

/-- Counterexample to C3 as stated: in the list of three records below every
record has the required fields, yet the second has no `labels` field, so the
printing loop throws in its block: `main` prints 22 entries instead of
1 + 14 * 3, prints an error message, and the block of the third record
(VSFT-9) is dropped. -/
theorem missing_labels_drop_later_blocks :
    (∀ r ∈ [issueFull, issueNoLabels, issueBare], requiredPresent r = true) ∧
    (main (searchReturning [issueFull, issueNoLabels, issueBare])).stdout.length = 22 ∧
    (main (searchReturning [issueFull, issueNoLabels, issueBare])).stdout.length
      ≠ 1 + 14 * [issueFull, issueNoLabels, issueBare].length ∧
    (specBlock 3 issueBare).head? = some "3. [Task] VSFT-9 - Bare" ∧
    "3. [Task] VSFT-9 - Bare" ∉ (main (searchReturning [issueFull, issueNoLabels, issueBare])).stdout ∧
    (main (searchReturning [issueFull, issueNoLabels, issueBare])).stderr
      = [[.str "❌ Error:", .str "Cannot read properties of undefined (reading 'join')"]] :=
  ⟨by simp; exact ⟨rfl, rfl, rfl⟩, by decide, by decide, by decide, by decide, rfl⟩

/-- Claim C3, amended: for raw records with the required fields present (key,
type name, status name and summary are strings), `fetchFullTickets` returns as
many tickets as there are records, the i-th ticket carrying the key of the
i-th record; and when every record is moreover well-formed (`labels` is an
array of strings; priority, assignee and reporter are absent or carry a string
name; the timestamps and the four extension fields are absent or convert to a
string), `main` prints the block of the i-th record (numbered i + 1) on the
fourteen lines that follow the total line and the blocks of the records before
it, so that no record is dropped, duplicated or reordered. -/
theorem tickets_and_blocks_keep_order (search : SearchFn) (result : JSVal)
    (issues : List JSVal)
    (hs : search (searchRequest JIRA_PROJECT_KEY FIX_VERSION) = .ok result)
    (hi : getProp result "issues" = .arr issues)
    (hreq : ∀ r ∈ issues, requiredPresent r = true) :
    ∃ tickets, fetchFullTickets search JIRA_PROJECT_KEY FIX_VERSION = .ok tickets ∧
      tickets.length = issues.length ∧
      (∀ (i : Nat) (r : JSVal), issues[i]? = some r → (tickets[i]?).map Ticket.key = some (getProp r "key")) ∧
      ((∀ r ∈ issues, wellFormed r = true) →
        (main search).stdout.length = 1 + 14 * issues.length ∧
        ∀ (i : Nat) (r : JSVal) (c : Nat), issues[i]? = some r → c < 14 →
          (main search).stdout[1 + 14 * i + c]? = (specBlock (i + 1) r)[c]?) := by
  refine ⟨issues.map ticketOf, fetchFullTickets_of_required hs hi hreq, by simp, ?_, ?_⟩
  · intro i r hr
    simp [List.getElem?_map, hr, ticketOf]
  · intro hwf
    rw [main_of_wellFormed hs hi hwf]
    refine ⟨by simp [specBlocks_length]; omega, ?_⟩
    intro i r c hr hc
    have e : 1 + 14 * i + c = (14 * i + c) + 1 := by omega
    simp only [e, List.getElem?_cons_succ]
    rw [specBlocks_getElem? issues 1 i c r hr hc, Nat.add_comm 1 i]

/-- Witness of the amended C3 on three well-formed records in a fixed order. -/
theorem tickets_and_blocks_keep_order_witness :
    (∀ r ∈ [issueFull, issueVSFT42, issueBare], requiredPresent r = true) ∧
    (∀ r ∈ [issueFull, issueVSFT42, issueBare], wellFormed r = true) ∧
    ∃ tickets, fetchFullTickets (searchReturning [issueFull, issueVSFT42, issueBare])
        JIRA_PROJECT_KEY FIX_VERSION = .ok tickets ∧
      tickets.length = [issueFull, issueVSFT42, issueBare].length ∧
      (∀ (i : Nat) (r : JSVal), [issueFull, issueVSFT42, issueBare][i]? = some r →
        (tickets[i]?).map Ticket.key = some (getProp r "key")) ∧
      ((∀ r ∈ [issueFull, issueVSFT42, issueBare], wellFormed r = true) →
        (main (searchReturning [issueFull, issueVSFT42, issueBare])).stdout.length
          = 1 + 14 * [issueFull, issueVSFT42, issueBare].length ∧
        ∀ (i : Nat) (r : JSVal) (c : Nat),
          [issueFull, issueVSFT42, issueBare][i]? = some r → c < 14 →
          (main (searchReturning [issueFull, issueVSFT42, issueBare])).stdout[1 + 14 * i + c]?
            = (specBlock (i + 1) r)[c]?) :=
  ⟨by simp; exact ⟨rfl, rfl, rfl⟩, by simp; exact ⟨rfl, rfl, rfl⟩,
   tickets_and_blocks_keep_order (searchReturning [issueFull, issueVSFT42, issueBare])
    (.obj [("issues", .arr [issueFull, issueVSFT42, issueBare])])
    [issueFull, issueVSFT42, issueBare] rfl rfl (by simp; exact ⟨rfl, rfl, rfl⟩)⟩

/-- Counterexample to C5 as stated, on two records that each have the key,
type, status and summary.  Without a `labels` field the printing loop throws
in the middle of the block: 7 of its 14 lines are printed, then an error
message.  With an empty label list but an extension field that is an object
with an own `toString` property, the loop throws after 9 lines of the block,
again with an error message. -/
theorem absent_labels_abort_the_block :
    requiredPresent issueNoLabels = true ∧
    getProp (fieldsOf issueNoLabels) "labels" = .undefined ∧
    (main (searchReturning [issueNoLabels])).stdout.length = 1 + 7 ∧
    (main (searchReturning [issueNoLabels])).stderr
      = [[.str "❌ Error:", .str "Cannot read properties of undefined (reading 'join')"]] ∧
    (main (searchReturning [issueNoLabels])).stderr ≠ [] ∧
    requiredPresent issueShadowedToString = true ∧
    getProp (fieldsOf issueShadowedToString) "labels" = .arr [] ∧
    (main (searchReturning [issueShadowedToString])).stdout.length = 1 + 9 ∧
    (main (searchReturning [issueShadowedToString])).stderr
      = [[.str "❌ Error:", .str "Cannot convert object to primitive value"]] :=
  ⟨rfl, rfl, rfl, rfl, by simp [show (main (searchReturning [issueNoLabels])).stderr
      = [[.str "❌ Error:", .str "Cannot read properties of undefined (reading 'join')"]]
      from rfl], rfl, rfl, rfl, rfl⟩

/-- Claim C5, amended: for raw records that are well-formed (the key, the type
name, the status name and the summary are strings; `labels` is an array of
strings, possibly empty; each of priority, assignee and reporter is absent or
an object whose name, respectively display name, is a string; each of the two
timestamps and the four extension fields is absent or holds a value that
converts to a string; the description is unconstrained), projecting and
rendering complete without a throw whichever of priority, description,
assignee, reporter, the timestamps and the extension fields are absent:
`main` prints the total line and one complete block of 14 lines per record,
prints no error message and settles normally. -/
theorem well_formed_records_render_completely (search : SearchFn) (result : JSVal)
    (issues : List JSVal)
    (hs : search (searchRequest JIRA_PROJECT_KEY FIX_VERSION) = .ok result)
    (hi : getProp result "issues" = .arr issues)
    (hwf : ∀ r ∈ issues, wellFormed r = true) :
    (main search).stdout = totalLine issues.length :: specBlocks issues 1 ∧
      (main search).stdout.length = 1 + 14 * issues.length ∧
      (main search).stderr = [] ∧ (main search).completion = .fulfilled := by
  rw [main_of_wellFormed hs hi hwf]
  refine ⟨rfl, ?_, rfl, rfl⟩
  simp [specBlocks_length]
  omega

/-- Witness of the amended C5 on two records in which priority, description,
assignee, reporter, timestamps and extension fields are all absent. -/
theorem well_formed_records_render_completely_witness :
    (∀ r ∈ [issueBare, issueVSFT42], wellFormed r = true) ∧
    (main (searchReturning [issueBare, issueVSFT42])).stdout
      = totalLine [issueBare, issueVSFT42].length :: specBlocks [issueBare, issueVSFT42] 1 ∧
    (main (searchReturning [issueBare, issueVSFT42])).stdout.length
      = 1 + 14 * [issueBare, issueVSFT42].length ∧
    (main (searchReturning [issueBare, issueVSFT42])).stderr = [] ∧
    (main (searchReturning [issueBare, issueVSFT42])).completion = .fulfilled :=
  ⟨by simp; exact ⟨rfl, rfl⟩,
   well_formed_records_render_completely (searchReturning [issueBare, issueVSFT42])
    (.obj [("issues", .arr [issueBare, issueVSFT42])]) [issueBare, issueVSFT42] rfl rfl
    (by simp; exact ⟨rfl, rfl⟩)⟩

/-- Claim C7: for N well-formed raw records the text on standard output is the
line `Total N issues in version "<FIX_VERSION>":`, a blank line, and then the
N blocks in order, each made of its 14 lines (header, Status, Priority,
Assignee, Reporter, Created, Updated, Labels, Product Item, Environment,
Feature, Testing version, URL, blank line); the header of the k-th block is
`k. [<type>] <key> - <summary>` with the type, key and summary of the k-th
record.  For N = 0 the text is the total line and the blank line only. -/
theorem report_text (search : SearchFn) (result : JSVal) (issues : List JSVal)
    (hs : search (searchRequest JIRA_PROJECT_KEY FIX_VERSION) = .ok result)
    (hi : getProp result "issues" = .arr issues)
    (hwf : ∀ r ∈ issues, wellFormed r = true) :
    stdoutText (main search)
        = "Total " ++ toString issues.length ++ " issues in version \"" ++ FIX_VERSION ++ "\":"
          ++ "\n" ++ "\n" ++ blocksText issues 1 ∧
      (issues = [] → stdoutText (main search)
        = "Total 0 issues in version \"" ++ FIX_VERSION ++ "\":" ++ "\n" ++ "\n") ∧
      ∀ (i : Nat) (r : JSVal), issues[i]? = some r →
        (specBlock (i + 1) r).length = 14 ∧
        ∃ type key summary,
          getProp (getProp (fieldsOf r) "issuetype") "name" = .str type ∧
          getProp r "key" = .str key ∧
          getProp (fieldsOf r) "summary" = .str summary ∧
          (specBlock (i + 1) r).head? = some (toString (i + 1) ++ ". [" ++ type ++ "] " ++ key
            ++ " - " ++ summary) := by
  have hq : "\":\n" = "\":" ++ "\n" := by decide
  have htext : stdoutText (main search)
      = "Total " ++ toString issues.length ++ " issues in version \"" ++ FIX_VERSION ++ "\":"
        ++ "\n" ++ "\n" ++ blocksText issues 1 := by
    rw [main_of_wellFormed hs hi hwf]
    simp only [stdoutText]
    rw [← linesText_specBlocks]
    simp only [linesText, List.map_cons, join_cons, totalLine, hq, String.append_assoc]
  refine ⟨htext, ?_, ?_⟩
  · intro he
    rw [htext, he]
    simp only [blocksText, List.length_nil, String.append_assoc]
    rfl
  · intro i r hr
    refine ⟨rfl, ?_⟩
    have hreq := required_of_wellFormed (hwf r (List.getElem?_mem hr))
    simp only [requiredPresent, Bool.and_eq_true] at hreq
    obtain ⟨⟨⟨hk, hty⟩, _⟩, hsm⟩ := hreq
    obtain ⟨key, hkey⟩ := (isStr_iff _).1 hk
    obtain ⟨type, htype⟩ := (isStr_iff _).1 hty
    obtain ⟨summary, hsum⟩ := (isStr_iff _).1 hsm
    exact ⟨type, key, summary, htype, hkey, hsum, by
      simp [specBlock, htype, hkey, hsum, textOf_str]⟩

/-- Witness of C7 on the record of the end-to-end scenario. -/
theorem report_text_witness :
    (∀ r ∈ [issueVSFT42], wellFormed r = true) ∧
    stdoutText (main (searchReturning [issueVSFT42]))
        = "Total " ++ toString [issueVSFT42].length ++ " issues in version \"" ++ FIX_VERSION
          ++ "\":" ++ "\n" ++ "\n" ++ blocksText [issueVSFT42] 1 ∧
      ([issueVSFT42] = [] → stdoutText (main (searchReturning [issueVSFT42]))
        = "Total 0 issues in version \"" ++ FIX_VERSION ++ "\":" ++ "\n" ++ "\n") ∧
      ∀ (i : Nat) (r : JSVal), [issueVSFT42][i]? = some r →
        (specBlock (i + 1) r).length = 14 ∧
        ∃ type key summary,
          getProp (getProp (fieldsOf r) "issuetype") "name" = .str type ∧
          getProp r "key" = .str key ∧
          getProp (fieldsOf r) "summary" = .str summary ∧
          (specBlock (i + 1) r).head? = some (toString (i + 1) ++ ". [" ++ type ++ "] " ++ key
            ++ " - " ++ summary) :=
  ⟨by simp; rfl,
   report_text (searchReturning [issueVSFT42]) (.obj [("issues", .arr [issueVSFT42])])
    [issueVSFT42] rfl rfl (by simp; rfl)⟩

end FetchReleaseTickets
